import Mathlib

/-!
Shallow embedding of the SEO rules engine of `gtm-toolkit`
(`src/core/seo-rules.ts`), together with proofs of the specification
claims about it.

Modelling conventions:
* JavaScript strings are modelled by Lean `String` (inputs of interest are
  ASCII, where `length`, `toLowerCase`, `substring`, `trim` agree with the
  Lean counterparts).
* A front-matter object is a list of key/value string pairs; a missing key
  behaves like the empty string, matching JavaScript truthiness for the
  string-valued fields the rules read (`!fm.title` is true for both
  `undefined` and `""`).
* Regular-expression scans are translated into explicit scanners.  The
  character classes involved (`[^\]]`, `[^)]`, `\d`, `\s`, `\w`) make the
  JavaScript regexes deterministic, so each scan is a left-to-right walk
  that, at each position, either recognises a match (and continues after
  it, as a `g`-flagged regex does via `lastIndex`) or advances one
  character.  Scanners over non-structural recursion use a fuel argument;
  fuel equal to the input length suffices because every successful parse
  consumes at least one character.
* Floating-point arithmetic (`score`, keyword density) is modelled with
  exact rational arithmetic, and `Number.prototype.toFixed(1)` by exact
  rounding half-up; on the small counts involved the double computations
  round identically.
-/

namespace GTMToolkit

set_option maxRecDepth 8000

/-- Severity of a rule, `'error' | 'warning' | 'info'` in `types.ts`. -/
inductive Severity where
  | error
  | warning
  | info
deriving DecidableEq, Repr

/-- Front-matter map (string-valued fields, which is all the rules read). -/
abbrev Frontmatter := List (String × String)

/-- Property access `frontmatter.k` for string fields: a missing key is
modelled by `""`, which is exactly as falsy as `undefined` in every test
the rules perform. -/
def fmGet (fm : Frontmatter) (k : String) : String :=
  (((fm.find? (fun p => p.1 = k)).map Prod.snd)).getD ""

/-- Verdict record `SEOLintRuleResult` from `types.ts` (`line` is never set by any rule
and is omitted). -/
structure SEOLintRuleResult where
  passed : Bool
  message : String
  suggestion : Option String := none
deriving DecidableEq, Repr

/-- Rule record `SEOLintRule` from `types.ts`.  `check` receives the raw content, the
front-matter map and the optional filename. -/
structure SEOLintRule where
  id : String
  name : String
  description : String
  severity : Severity
  check : String → Frontmatter → Option String → SEOLintRuleResult

/-- Result record `SEOLintResult` from `types.ts`: a rule verdict merged with the rule's
identity. -/
structure SEOLintResult where
  rule : String
  name : String
  severity : Severity
  passed : Bool
  message : String
  suggestion : Option String
deriving DecidableEq, Repr

/-- Summary record `SEOLintSummary` from `types.ts`. -/
structure SEOLintSummary where
  errors : Nat
  warnings : Nat
  passed : Nat
deriving DecidableEq, Repr

/-! ### Fixed vocabularies (`seo-rules.ts` lines 10–39) -/

def PRIMARY_KEYWORDS : List String :=
  ["gtm as code", "modern marketing", "developer marketing",
   "product-led growth", "product-led sales", "content linter",
   "seo guard rails", "ai search optimization", "vibe coding",
   "telemetry", "growth reviews", "pricing as a product", "posthog"]

def SECONDARY_KEYWORDS : List String :=
  ["content as code", "growth engineering", "continuous marketing",
   "observability", "open handbook", "repo-first website",
   "changelog automation", "feature flags", "internal tools",
   "brand consistency"]

def ALLOWED_CATEGORIES : List String :=
  ["gtm", "SEO", "vibe coding", "OUT-OF-STEALTH"]

/-! ### String helpers

All text processing is done by structural recursion over the character
list, so that every definition evaluates inside the kernel. -/

/-- JavaScript `toLowerCase` (ASCII inputs). -/
def jsToLower (s : String) : String :=
  String.mk (s.toList.map Char.toLower)

/-- JavaScript `trim`: drop whitespace from both ends. -/
def jsTrim (s : String) : String :=
  String.mk (((s.toList.dropWhile Char.isWhitespace).reverse.dropWhile
    Char.isWhitespace).reverse)

/-- Prefix test (`String.prototype.startsWith`), via the character
list so that it evaluates inside the kernel. -/
def strStarts (s pat : String) : Bool :=
  List.isPrefixOf pat.toList s.toList

/-- Suffix test (`String.prototype.endsWith`), via the character list. -/
def strEnds (s pat : String) : Bool :=
  List.isPrefixOf pat.toList.reverse s.toList.reverse

/-- JavaScript `substring(0, n)` for an in-range integer `n`. -/
def strTake (s : String) (n : Nat) : String :=
  String.mk (s.toList.take n)

/-- The substring from character position `n` on. -/
def strDrop (s : String) (n : Nat) : String :=
  String.mk (s.toList.drop n)

/-- Split at every character satisfying `p`; adjacent separators yield
empty pieces and the empty string splits to `[""]`. -/
def charSplitAux (p : Char → Bool) : List Char → List Char → List (List Char)
  | [], acc => [acc.reverse]
  | c :: t, acc =>
    if p c then acc.reverse :: charSplitAux p t []
    else charSplitAux p t (c :: acc)

/-- Split a string at every character satisfying `p`. -/
def splitChars (p : Char → Bool) (s : String) : List String :=
  (charSplitAux p s.toList []).map String.mk

/-- Number of non-overlapping, leftmost-first occurrences of the pattern
in the text — the length of a `g`-flagged literal match.  Fuel equal to
the text length suffices: every hit consumes at least one character. -/
def countOccurAux (pat : List Char) : Nat → List Char → Nat
  | 0, _ => 0
  | _ + 1, [] => 0
  | fuel + 1, c :: t =>
    if List.isPrefixOf pat (c :: t) then
      1 + countOccurAux pat fuel ((c :: t).drop pat.length)
    else countOccurAux pat fuel t

/-- Number of non-overlapping, leftmost-first occurrences of the literal
`pat` in `s` — the length of `s.match(new RegExp(pat, 'g')) || []` for a
metacharacter-free pattern. -/
def countOccur (s pat : String) : Nat :=
  if pat = "" then 0 else countOccurAux pat.toList s.toList.length s.toList

/-- Substring containment (`String.prototype.includes`). -/
def strContains (s pat : String) : Bool :=
  pat = "" || countOccur s pat > 0

/-- The lines of a string, splitting on `'\n'` (how the `m`-flag anchors
partition ASCII text). -/
def linesOf (s : String) : List String :=
  splitChars (fun c => c = '\n') s

/-- Test of `/^\d{4}-\d{2}-\d{2}$/` on `s` (`seo-rules.ts` line 105). -/
def matchesDateFormat (s : String) : Bool :=
  match s.toList with
  | [y1, y2, y3, y4, h1, m1, m2, h2, d1, d2] =>
    y1.isDigit && y2.isDigit && y3.isDigit && y4.isDigit &&
    h1 = '-' && m1.isDigit && m2.isDigit && h2 = '-' &&
    d1.isDigit && d2.isDigit
  | _ => false

/-- Test of `/^\d+\s+min\s+read$/` on `s` (`seo-rules.ts` line 203).  The greedy
quantifiers are deterministic here since `\d` and `\s` are disjoint from
the literals that follow them. -/
def matchesReadtime (s : String) : Bool :=
  let cs := s.toList
  let ds := cs.takeWhile Char.isDigit
  let r1 := cs.drop ds.length
  let ws1 := r1.takeWhile Char.isWhitespace
  let r2 := r1.drop ws1.length
  decide (ds ≠ []) && decide (ws1 ≠ []) &&
  List.isPrefixOf "min".toList r2 &&
  (let r3 := r2.drop 3
   let ws2 := r3.takeWhile Char.isWhitespace
   decide (ws2 ≠ []) && decide (r3.drop ws2.length = "read".toList))

/-- Test of `/^\d{4}-\d{2}-\d{2}-.+\.md$/` on `s` (`seo-rules.ts` line 230):
a ten-character date, a dash, a non-empty middle free of line
terminators (`.` does not match them), and a literal `.md` at the end. -/
def matchesFilenameFormat (s : String) : Bool :=
  let cs := s.toList
  matchesDateFormat (String.mk (cs.take 10)) &&
  (cs.drop 10).head? = some '-' &&
  strEnds s ".md" &&
  cs.length ≥ 15 &&
  ((cs.drop 11).take (cs.length - 14)).all (fun c => c ≠ '\n' && c ≠ '\r')

/-! ### Front-matter stripping

Several rules replace the `m`-flagged pattern `^---[\s\S]*?---` by the
empty string: delete the span from the first line-start `---` through the
earliest following `---` (the lazy quantifier makes the closing `---` the
leftmost occurrence), or leave the content unchanged when no such span
exists. -/

/-- The remainder of `cs` after the first occurrence of `pat`, if any. -/
def restAfterFirst (pat : List Char) : List Char → Option (List Char)
  | [] => if pat = [] then some [] else none
  | c :: t =>
    if List.isPrefixOf pat (c :: t) then some ((c :: t).drop pat.length)
    else restAfterFirst pat t

/-- Character-level engine for the front-matter `replace`.  `atStart` is
true exactly when the current position is a line start (start of input or
right after a line terminator, where the `m`-flagged `^` matches). -/
def stripFMAux : List Char → Bool → List Char
  | [], _ => []
  | c :: t, atStart =>
    if atStart && List.isPrefixOf ['-', '-', '-'] (c :: t) then
      match restAfterFirst ['-', '-', '-'] ((c :: t).drop 3) with
      | some rest => rest
      | none => c :: stripFMAux t (c = '\n' || c = '\r')
    else c :: stripFMAux t (c = '\n' || c = '\r')

/-- The `replace` of the `m`-flagged `^---[\s\S]*?---` by `""`. -/
def stripFrontmatter (s : String) : String :=
  String.mk (stripFMAux s.toList true)

/-- The non-empty tokens of a whitespace split. -/
def wsTokens (s : String) : List String :=
  (splitChars Char.isWhitespace s).filter (fun t => t ≠ "")

/-- JavaScript `s.split(/\s+/).length`: the non-empty tokens, plus an
empty leading (trailing) element when the string starts (ends) with
whitespace; `""` splits to `[""]`. -/
def jsSplitWsCount (s : String) : Nat :=
  if s.isEmpty then 1
  else
    (wsTokens s).length
      + (if (s.toList.head?.map Char.isWhitespace).getD false then 1 else 0)
      + (if (s.toList.getLast?.map Char.isWhitespace).getD false then 1 else 0)

/-! ### Generic regex-style scanners -/

/-- The chunk of characters before the first `stop`, and the remainder
after it; `none` when `stop` never occurs.  This is how the deterministic
classes `[^\]]`/`[^)]` consume text: everything up to the excluded
character. -/
def takeUntil (stop : Char) : List Char → Option (List Char × List Char)
  | [] => none
  | c :: t =>
    if c = stop then some ([], t)
    else
      match takeUntil stop t with
      | some (xs, r) => some (c :: xs, r)
      | none => none

/-- A `g`-flagged scan: at each position try the parser; on a match emit
it and resume after the consumed span, otherwise advance one character.
Fuel equal to the input length suffices since every parser used below
consumes at least one character per match. -/
def scanWith (p : List Char → Option (α × List Char)) : Nat → List Char → List α
  | 0, _ => []
  | _ + 1, [] => []
  | fuel + 1, c :: t =>
    match p (c :: t) with
    | some (a, r) => a :: scanWith p fuel r
    | none => scanWith p fuel t

/-- Run a scanner over a whole string. -/
def scanStr (p : List Char → Option (α × List Char)) (s : String) : List α :=
  scanWith p s.toList.length s.toList

/-- One attempt of the markdown-link pattern `\[([^\]]+)\]\(([^)]+)\)`:
at a `[`, the anchor text runs to the first `]` and must be non-empty,
then `(` must follow, and the target runs to the first `)` and must be
non-empty.  Returns `(anchor text, target, rest)`. -/
def parseLinkAt : List Char → Option ((String × String) × List Char)
  | '[' :: rest =>
    match takeUntil ']' rest with
    | some (text, r1) =>
      if text.isEmpty then none
      else
        match r1 with
        | '(' :: r2 =>
          match takeUntil ')' r2 with
          | some (tgt, r3) =>
            if tgt.isEmpty then none
            else some ((String.mk text, String.mk tgt), r3)
          | none => none
        | _ => none
    | none => none
  | _ => none

/-- One attempt of the internal-link pattern
`\[([^\]]+)\]\((\/[^)]+|#[^)]+)\)` (SEO-013): like `parseLinkAt`, but the
target must start with `/` or `#` and have at least one further
character before the closing `)`. -/
def parseInternalLinkAt (cs : List Char) : Option ((String × String) × List Char) :=
  match parseLinkAt cs with
  | some ((text, tgt), r) =>
    if (strStarts tgt "/" || strStarts tgt "#") && tgt.length ≥ 2 then
      some ((text, tgt), r)
    else none
  | none => none

/-- One attempt of the image pattern `!\[([^\]]*)\]\(([^)]+)\)`
(SEO-020): the alt text may be empty. -/
def parseImageAt : List Char → Option (String × List Char)
  | '!' :: '[' :: rest =>
    match takeUntil ']' rest with
    | some (alt, r1) =>
      match r1 with
      | '(' :: r2 =>
        match takeUntil ')' r2 with
        | some (tgt, r3) =>
          if tgt.isEmpty then none else some (String.mk alt, r3)
        | none => none
      | _ => none
    | none => none
  | _ => none

/-- One attempt of the empty-anchor pattern `\[([^\]]+)\]\(#\)`
(SEO-031): the target must be exactly `#`.  Returns the full matched
substring. -/
def parseHashLinkAt : List Char → Option (String × List Char)
  | '[' :: rest =>
    match takeUntil ']' rest with
    | some (text, r1) =>
      if text.isEmpty then none
      else
        match r1 with
        | '(' :: '#' :: ')' :: r2 => some (String.mk ('[' :: text ++ "](#)".toList), r2)
        | _ => none
    | none => none
  | _ => none

/-- ASCII-lowercased prefix test: does `cs` start with the (lowercase)
pattern `pat`, comparing case-insensitively? -/
def lowerStarts : List Char → List Char → Bool
  | [], _ => true
  | _ :: _, [] => false
  | p :: ps, c :: cs => p = c.toLower && lowerStarts ps cs

/-- One attempt of the `/todo`-link pattern `\[([^\]]+)\]\(\/todo\)` with
the `i` flag (SEO-031).  Returns the full matched substring in its
original casing. -/
def parseTodoLinkAt : List Char → Option (String × List Char)
  | '[' :: rest =>
    match takeUntil ']' rest with
    | some (text, r1) =>
      if text.isEmpty then none
      else if lowerStarts "(/todo)".toList r1 then
        some (String.mk ('[' :: text ++ ']' :: r1.take 7), r1.drop 7)
      else none
    | none => none
  | _ => none

/-- One attempt of a case-insensitive literal pattern (SEO-031's
`example.com`).  Returns the matched substring in original casing. -/
def parseLitAt (pat : List Char) (cs : List Char) : Option (String × List Char) :=
  if lowerStarts pat cs then some (String.mk (cs.take pat.length), cs.drop pat.length)
  else none

/-- One attempt of `lorem\s+ipsum` with the `i` flag (SEO-031): `lorem`,
one or more whitespace characters (greedy and deterministic, since no
whitespace character can start `ipsum`), then `ipsum`. -/
def parseLoremAt (cs : List Char) : Option (String × List Char) :=
  if lowerStarts "lorem".toList cs then
    let r1 := cs.drop 5
    let ws := r1.takeWhile Char.isWhitespace
    if ws.isEmpty then none
    else if lowerStarts "ipsum".toList (r1.drop ws.length) then
      some (String.mk (cs.take (5 + ws.length + 5)), r1.drop (ws.length + 5))
    else none
  else none

/-- A word character in the sense of the regex `\w` / `\b`. -/
def wordChar (c : Char) : Bool := c.isAlphanum || c = '_'

/-- Scan for a case-insensitive word (`\b pat \b`, `i`-flagged), with an
optional negative lookahead for `:` after the match (SEO-031's pattern
for `todo` not followed by a colon).  `prev` is the character before the
current position, for the leading `\b`. -/
def scanWB (pat : List Char) (noColon : Bool) : Option Char → Nat → List Char → List String
  | _, 0, _ => []
  | _, _ + 1, [] => []
  | prev, fuel + 1, c :: t =>
    let cs := c :: t
    let boundaryBefore := match prev with
      | some p => !wordChar p
      | none => true
    let rest := cs.drop pat.length
    let boundaryAfter := match rest.head? with
      | some d => !wordChar d
      | none => true
    let lookahead := !noColon || rest.head? ≠ some ':'
    if boundaryBefore && lowerStarts pat cs && boundaryAfter && lookahead then
      String.mk (cs.take pat.length) ::
        scanWB pat noColon ((cs.take pat.length).getLast?) fuel rest
    else scanWB pat noColon (some c) fuel t

/-- All matches of an `i`-flagged `\b pat \b` scan over a string. -/
def scanWordStr (pat : String) (noColon : Bool) (s : String) : List String :=
  scanWB pat.toList noColon none s.toList.length s.toList

/-! ### Paragraph and sentence splitting (SEO-040) -/

/-- Index of the last `'\n'` in a list, if any. -/
def lastNlPos : List Char → Option Nat
  | [] => none
  | c :: t =>
    match lastNlPos t with
    | some i => some (i + 1)
    | none => if c = '\n' then some 0 else none

/-- Given the text after a `'\n'`, the remainder after a
`\n\s*\n`-separator ending there, if one exists: the greedy `\s*`
(followed by a backtracked final `\n`) ends at the last `'\n'` inside the
maximal whitespace run. -/
def sepEnd (t : List Char) : Option (List Char) :=
  match lastNlPos (t.takeWhile Char.isWhitespace) with
  | some i => some (t.drop (i + 1))
  | none => none

/-- JavaScript `s.split(/\n\s*\n/)` — the engine walks left to right and splits at
each leftmost separator match. -/
def splitParasAux : Nat → List Char → List Char → List String
  | 0, _, acc => [String.mk acc.reverse]
  | _ + 1, [], acc => [String.mk acc.reverse]
  | fuel + 1, c :: t, acc =>
    if c = '\n' then
      match sepEnd t with
      | some rest => String.mk acc.reverse :: splitParasAux fuel rest []
      | none => splitParasAux fuel t ('\n' :: acc)
    else splitParasAux fuel t (c :: acc)

/-- JavaScript `s.split(/\n\s*\n/)`. -/
def splitParas (s : String) : List String :=
  splitParasAux s.toList.length s.toList []

/-- JavaScript `s.split(/[.!?]+/)`: pieces separated by maximal non-empty runs of
sentence punctuation (empty pieces possible at the edges). -/
def splitPunctAux : Nat → List Char → List Char → List String
  | 0, _, acc => [String.mk acc.reverse]
  | _ + 1, [], acc => [String.mk acc.reverse]
  | fuel + 1, c :: t, acc =>
    if c = '.' || c = '!' || c = '?' then
      String.mk acc.reverse ::
        splitPunctAux fuel (t.dropWhile (fun d => d = '.' || d = '!' || d = '?')) []
    else splitPunctAux fuel t (c :: acc)

/-- JavaScript `s.split(/[.!?]+/)`. -/
def splitPunct (s : String) : List String :=
  splitPunctAux s.toList.length s.toList []

/-! ### Keyword density (SEO-052) -/

/-- The float comparison `density > 2.5` where
`density = keywordCount / totalWords * 100`: for a positive denominator
this is the exact `40 * count > total`; for `totalWords = 0` the
JavaScript quotient is `Infinity` (when the count is positive) or `NaN`
(when it is zero), so the comparison holds exactly when the count is
positive. -/
def densityExceeds (count total : Nat) : Bool :=
  if total = 0 then count > 0 else 40 * count > total

/-- Rendering of `((count / total) * 100).toFixed(1)` via exact rounding (half-up, as
`toFixed` resolves ties toward the larger integer); `Infinity` for a zero
denominator, as in JavaScript. -/
def toFixed1 (count total : Nat) : String :=
  if total = 0 then "Infinity"
  else
    let n := (2000 * count + total) / (2 * total)
    toString (n / 10) ++ "." ++ toString (n % 10)

/-- The first primary keyword whose density exceeds the threshold, in
list order (the source returns on the first offender). -/
def firstDenseKeyword (body : String) (total : Nat) : List String → Option String
  | [] => none
  | kw :: rest =>
    if densityExceeds (countOccur body (jsToLower kw)) total then some kw
    else firstDenseKeyword body total rest

/-! ### The rule checks (`SEO_RULES`, `seo-rules.ts` lines 46–554) -/

/-- SEO-001 Title Requirements (`seo-rules.ts` lines 53–87). -/
def seo001check (content : String) (frontmatter : Frontmatter) (filename : Option String) :
    SEOLintRuleResult :=
  let _ := (content, filename)
  let title := fmGet frontmatter "title"
  if title = "" then
    ⟨false, "Title is required in frontmatter",
      some "Add a title field with 45-70 characters"⟩
  else
    let titleLength := title.length
    if titleLength < 45 || titleLength > 70 then
      ⟨false, "Title length is " ++ toString titleLength ++ " chars (should be 45-70)",
        some (if titleLength < 45 then "Make title longer and more descriptive"
              else "Shorten title for better SEO")⟩
    else
      let firstHalf := strTake (jsToLower title) (titleLength / 2)
      let hasKeyword := PRIMARY_KEYWORDS.any (fun keyword => strContains firstHalf (jsToLower keyword))
      if !hasKeyword then
        ⟨false, "No primary keyword found in title start",
          some ("Include one of these keywords near the beginning: " ++
            String.intercalate ", " PRIMARY_KEYWORDS)⟩
      else ⟨true, "Title validated: " ++ toString titleLength ++ " chars with keyword", none⟩

/-- SEO-002 Date Format (`seo-rules.ts` lines 95–115). -/
def seo002check (content : String) (frontmatter : Frontmatter) (filename : Option String) :
    SEOLintRuleResult :=
  let _ := (content, filename)
  let date := fmGet frontmatter "date"
  if date = "" then
    ⟨false, "Date is required in frontmatter", some "Add date field in YYYY-MM-DD format"⟩
  else if !matchesDateFormat date then
    ⟨false, "Invalid date format: " ++ date,
      some "Use YYYY-MM-DD format (e.g., 2025-01-15)"⟩
  else ⟨true, "Date format validated: " ++ date, none⟩

/-- SEO-003 Category Validation (`seo-rules.ts` lines 123–142). -/
def seo003check (content : String) (frontmatter : Frontmatter) (filename : Option String) :
    SEOLintRuleResult :=
  let _ := (content, filename)
  let category := fmGet frontmatter "category"
  if category = "" then
    ⟨false, "Category is required in frontmatter",
      some ("Add category field. Allowed: " ++ String.intercalate ", " ALLOWED_CATEGORIES)⟩
  else if !ALLOWED_CATEGORIES.contains category then
    ⟨false, "Invalid category: " ++ category,
      some ("Use one of: " ++ String.intercalate ", " ALLOWED_CATEGORIES)⟩
  else ⟨true, "Category validated: " ++ category, none⟩

/-- SEO-004 Summary Requirements (`seo-rules.ts` lines 150–184). -/
def seo004check (content : String) (frontmatter : Frontmatter) (filename : Option String) :
    SEOLintRuleResult :=
  let _ := (content, filename)
  let summary := fmGet frontmatter "summary"
  if summary = "" then
    ⟨false, "Summary is required in frontmatter",
      some "Add summary field with 120-160 characters describing the content"⟩
  else
    let summaryLength := summary.length
    if summaryLength < 120 || summaryLength > 160 then
      ⟨false, "Summary length is " ++ toString summaryLength ++ " chars (should be 120-160)",
        some (if summaryLength < 120 then "Expand summary with more detail"
              else "Shorten summary for better meta description")⟩
    else
      let summaryLower := jsToLower summary
      let hasKeywords := (PRIMARY_KEYWORDS ++ SECONDARY_KEYWORDS).any
        (fun keyword => strContains summaryLower (jsToLower keyword))
      if !hasKeywords then
        ⟨false, "No target keywords found in summary",
          some "Include 1-2 relevant keywords naturally in the summary"⟩
      else ⟨true, "Summary validated: " ++ toString summaryLength ++ " chars with keywords", none⟩

/-- SEO-005 Read Time (`seo-rules.ts` lines 192–213). -/
def seo005check (content : String) (frontmatter : Frontmatter) (filename : Option String) :
    SEOLintRuleResult :=
  let _ := (content, filename)
  if fmGet frontmatter "Readtime" = "" && fmGet frontmatter "readtime" = "" then
    ⟨false, "Readtime is required in frontmatter",
      some "Add Readtime field (e.g., \"5 min read\")"⟩
  else
    let readtime := if fmGet frontmatter "Readtime" ≠ "" then fmGet frontmatter "Readtime"
                    else fmGet frontmatter "readtime"
    if !matchesReadtime readtime then
      ⟨false, "Invalid readtime format: " ++ readtime, some "Use format like \"3 min read\""⟩
    else ⟨true, "Readtime validated: " ++ readtime, none⟩

/-- SEO-006 Filename Validation (`seo-rules.ts` lines 221–250).  The
`filename` parameter is absent (`undefined`) or a string; the string
`""` is as falsy as `undefined` in the leading guard. -/
def seo006check (content : String) (frontmatter : Frontmatter) (filename : Option String) :
    SEOLintRuleResult :=
  let _ := content
  if filename.getD "" = "" then
    ⟨false, "Filename not provided for validation",
      some "Ensure filename follows YYYY-MM-DD-slug.md format"⟩
  else
    let f := filename.getD ""
    if !matchesFilenameFormat f then
      ⟨false, "Invalid filename format: " ++ f, some "Use YYYY-MM-DD-slug.md format"⟩
    else
      let fileDate := strTake f 10
      if fmGet frontmatter "date" ≠ "" && fmGet frontmatter "date" ≠ fileDate then
        ⟨false, "Filename date (" ++ fileDate ++ ") doesn\x27t match frontmatter date (" ++
            fmGet frontmatter "date" ++ ")",
          some "Ensure filename date matches frontmatter date"⟩
      else ⟨true, "Filename validated: " ++ f, none⟩

/-- SEO-010 Single H1 Rule (`seo-rules.ts` lines 259–277): matches of the
`gm`-flagged `^# ` are the lines starting with `# `. -/
def seo010check (content : String) (frontmatter : Frontmatter) (filename : Option String) :
    SEOLintRuleResult :=
  let _ := filename
  let h1Count := (linesOf content).countP (fun l => strStarts l "# ")
  if h1Count > 0 then
    ⟨false, "Found " ++ toString h1Count ++ " H1 heading(s) in content body",
      some "Remove H1 headings from body. H1 comes from frontmatter title."⟩
  else if fmGet frontmatter "title" = "" then
    ⟨false, "No H1 available - missing title in frontmatter",
      some "Add title in frontmatter to serve as H1"⟩
  else ⟨true, "H1 structure validated (title only)", none⟩

/-- Does a line match the `gm`-flagged `^#{2,6} .+$`?  Two to six leading
hashes (a seventh hash forecloses the required space), a space, and at
least one further character. -/
def isHeadingLine (l : String) : Bool :=
  let k := (l.toList.takeWhile (fun c => c = '#')).length
  2 ≤ k && k ≤ 6 && strStarts (strDrop l k) " " && (strDrop l (k + 1)).length ≥ 1

/-- The heading lines of a document, in document order. -/
def headingsOf (content : String) : List String :=
  (linesOf content).filter isHeadingLine

/-- Heading levels: `h.match(/^#+/)?.[0].length || 0` over the heading
lines (`seo-rules.ts` line 289). -/
def headingLevels (content : String) : List Nat :=
  (headingsOf content).map (fun h => (h.toList.takeWhile (fun c => c = '#')).length)

/-- The first adjacent pair `(previous, current)` with
`current > previous + 1`, scanning left to right (`seo-rules.ts` lines
291–302). -/
def firstJump : List Nat → Option (Nat × Nat)
  | a :: b :: t => if b > a + 1 then some (a, b) else firstJump (b :: t)
  | _ => none

/-- SEO-011 Heading Hierarchy (`seo-rules.ts` lines 286–305). -/
def seo011check (content : String) (frontmatter : Frontmatter) (filename : Option String) :
    SEOLintRuleResult :=
  let _ := (frontmatter, filename)
  match firstJump (headingLevels content) with
  | some (previous, current) =>
    ⟨false, "Heading jump detected: H" ++ toString previous ++ " to H" ++ toString current,
      some "Use sequential heading levels (H2 → H3, not H2 → H4)"⟩
  | none =>
    ⟨true, "Heading hierarchy validated (" ++ toString (headingsOf content).length ++
      " headings)", none⟩

/-- SEO-012 Keyword in Opening (`seo-rules.ts` lines 313–332). -/
def seo012check (content : String) (frontmatter : Frontmatter) (filename : Option String) :
    SEOLintRuleResult :=
  let _ := (frontmatter, filename)
  let bodyContent := jsTrim (stripFrontmatter content)
  let words := jsToLower (String.intercalate " " ((wsTokens bodyContent).take 100))
  let hasKeyword := PRIMARY_KEYWORDS.any (fun keyword => strContains words (jsToLower keyword))
  if !hasKeyword then
    ⟨false, "No primary keyword found in first 100 words",
      some ("Naturally include a primary keyword: " ++
        String.intercalate ", " (PRIMARY_KEYWORDS.take 3))⟩
  else ⟨true, "Primary keyword found in opening content", none⟩

/-- SEO-013 Internal Linking (`seo-rules.ts` lines 340–354). -/
def seo013check (content : String) (frontmatter : Frontmatter) (filename : Option String) :
    SEOLintRuleResult :=
  let _ := (frontmatter, filename)
  let internalLinks := scanStr parseInternalLinkAt content
  if internalLinks.length = 0 then
    ⟨false, "No internal links found", some "Add at least one internal link to related content"⟩
  else ⟨true, "Internal linking validated (" ++ toString internalLinks.length ++ " links)", none⟩

/-- Test of the `i`-flagged
`^(https?:\/\/|www\.|click here|here|link|read more)$` on the trimmed
anchor text (`seo-rules.ts` line 369).  The alternation is anchored on
both sides, so only these exact strings match. -/
def isGenericAnchor (text : String) : Bool :=
  let t := jsToLower (jsTrim text)
  t = "http://" || t = "https://" || t = "www." || t = "click here" ||
  t = "here" || t = "link" || t = "read more"

/-- Anchor texts of all markdown links in a document. -/
def linkTexts (content : String) : List String :=
  (scanStr parseLinkAt content).map Prod.fst

/-- SEO-014 Descriptive Link Text (`seo-rules.ts` lines 362–383). -/
def seo014check (content : String) (frontmatter : Frontmatter) (filename : Option String) :
    SEOLintRuleResult :=
  let _ := (frontmatter, filename)
  let links := scanStr parseLinkAt content
  let badLinks := (links.map Prod.fst).filter isGenericAnchor
  if badLinks.length > 0 then
    ⟨false, "Found " ++ toString badLinks.length ++ " non-descriptive link(s)",
      some "Use descriptive anchor text instead of URLs or \"click here\""⟩
  else ⟨true, "Link text validated (" ++ toString links.length ++ " links)", none⟩

/-- SEO-020 Image Alt Text (`seo-rules.ts` lines 392–416). -/
def seo020check (content : String) (frontmatter : Frontmatter) (filename : Option String) :
    SEOLintRuleResult :=
  let _ := (frontmatter, filename)
  let images := scanStr parseImageAt content
  if images.length = 0 then
    ⟨true, "No images found - validation passed", none⟩
  else
    let missingAlt := images.filter (fun altText => (jsTrim altText).length = 0)
    if missingAlt.length > 0 then
      ⟨false, toString missingAlt.length ++ " image(s) missing alt text",
        some "Add descriptive alt text for all images"⟩
    else ⟨true, "Image alt text validated (" ++ toString images.length ++ " images)", none⟩

/-- Does `'\n'` occur before any `']'`?  Drives the unclosed-link test
`\[[^\]]*\n` after an opening `[`. -/
def nlBeforeRb : List Char → Bool
  | [] => false
  | '\n' :: _ => true
  | ']' :: _ => false
  | _ :: t => nlBeforeRb t

/-- Existence of a match of `\[[^\]]*\n`: some `[` with a newline before
the next `]`. -/
def hasBracketNl : List Char → Bool
  | [] => false
  | '[' :: t => nlBeforeRb t || hasBracketNl t
  | _ :: t => hasBracketNl t

/-- Does `'\n'` occur before any `')'`?  Drives the unclosed-link test
`\]\([^)]*\n` after a `](`. -/
def nlBeforeRp : List Char → Bool
  | [] => false
  | '\n' :: _ => true
  | ')' :: _ => false
  | _ :: t => nlBeforeRp t

/-- Existence of a match of `\]\([^)]*\n`: some `](` with a newline
before the next `)`. -/
def hasBrParenNl : List Char → Bool
  | ']' :: '(' :: t => nlBeforeRp t || hasBrParenNl ('(' :: t)
  | _ :: t => hasBrParenNl t
  | [] => false

/-- SEO-051 Markdown Syntax (`seo-rules.ts` lines 495–524). -/
def seo051check (content : String) (frontmatter : Frontmatter) (filename : Option String) :
    SEOLintRuleResult :=
  let _ := (frontmatter, filename)
  let issues : List String :=
    (if hasBracketNl content.toList || hasBrParenNl content.toList
     then ["Unclosed link syntax"] else []) ++
    (if countOccur content "```" % 2 ≠ 0 then ["Unclosed code block"] else []) ++
    (if (linesOf content).any (fun l => (l.toList.takeWhile (fun c => c = '#')).length ≥ 7)
     then ["Invalid heading level (H7+)"] else [])
  if issues.length > 0 then
    ⟨false, "Markdown syntax issues: " ++ String.intercalate ", " issues,
      some "Fix Markdown syntax errors"⟩
  else ⟨true, "Markdown syntax validated", none⟩

/-- SEO-031 No Placeholder Content (`seo-rules.ts` lines 425–454): the
seven placeholder patterns are scanned in order and their matches
concatenated. -/
def seo031check (content : String) (frontmatter : Frontmatter) (filename : Option String) :
    SEOLintRuleResult :=
  let _ := (frontmatter, filename)
  let found : List String :=
    scanStr parseHashLinkAt content ++
    scanStr parseTodoLinkAt content ++
    scanStr (parseLitAt "example.com".toList) content ++
    scanStr parseLoremAt content ++
    scanWordStr "tbd" false content ++
    scanWordStr "fixme" false content ++
    scanWordStr "todo" true content
  if found.length > 0 then
    ⟨false, "Found " ++ toString found.length ++ " placeholder(s): " ++
        String.intercalate ", " (found.take 3),
      some "Replace placeholder content with real links and text"⟩
  else ⟨true, "No placeholder content found", none⟩

/-- The filtered paragraph list of SEO-040 (`seo-rules.ts` line 466). -/
def paragraphsOf (content : String) : List String :=
  (splitParas (jsTrim (stripFrontmatter content))).filter (fun p => (jsTrim p).length > 0)

/-- SEO-040 Sentence Length (`seo-rules.ts` lines 463–486). -/
def seo040check (content : String) (frontmatter : Frontmatter) (filename : Option String) :
    SEOLintRuleResult :=
  let _ := (frontmatter, filename)
  let paragraphs := paragraphsOf content
  if paragraphs.length < 2 then
    ⟨true, "Not enough paragraphs for sentence analysis", none⟩
  else
    let firstTwoParagraphs := String.intercalate " " (paragraphs.take 2)
    let sentences := (splitPunct firstTwoParagraphs).filter (fun s => (jsTrim s).length > 0)
    let longSentences := sentences.filter (fun s => jsSplitWsCount s > 30)
    if longSentences.length > 0 then
      ⟨false, toString longSentences.length ++ " sentence(s) over 30 words in opening",
        some "Break long sentences into shorter ones for better readability"⟩
    else ⟨true, "Sentence length validated (" ++ toString sentences.length ++ " sentences)", none⟩

/-- The word total of SEO-052: whitespace tokens of the lowercased,
front-matter-stripped body that are longer than two characters
(`seo-rules.ts` line 535). -/
def totalWordsOf (content : String) : Nat :=
  ((splitChars Char.isWhitespace (jsToLower (stripFrontmatter content))).filter
    (fun w => w.length > 2)).length

/-- SEO-052 Keyword Density (`seo-rules.ts` lines 532–552). -/
def seo052check (content : String) (frontmatter : Frontmatter) (filename : Option String) :
    SEOLintRuleResult :=
  let _ := (frontmatter, filename)
  let bodyContent := jsToLower (stripFrontmatter content)
  let totalWords := totalWordsOf content
  match firstDenseKeyword bodyContent totalWords PRIMARY_KEYWORDS with
  | some keyword =>
    ⟨false, "Keyword \"" ++ keyword ++ "\" density is " ++
        toFixed1 (countOccur bodyContent (jsToLower keyword)) totalWords ++
        "% (should be < 2.5%)",
      some "Reduce keyword repetition and vary your language"⟩
  | none => ⟨true, "Keyword density within acceptable range", none⟩

/-- The rule registry `SEO_RULES` (`seo-rules.ts` lines 46–554), in
source order. -/
def SEO_RULES : List SEOLintRule :=
  [⟨"SEO-001", "Title Requirements",
    "Title present, 45-70 characters, uses primary keyword near start",
    Severity.error, seo001check⟩,
   ⟨"SEO-002", "Date Format", "Date present in ISO YYYY-MM-DD format",
    Severity.error, seo002check⟩,
   ⟨"SEO-003", "Category Validation", "Category present and from allowed list",
    Severity.error, seo003check⟩,
   ⟨"SEO-004", "Summary Requirements",
    "Summary present, 120-160 characters, acts as meta description",
    Severity.error, seo004check⟩,
   ⟨"SEO-005", "Read Time", "Readtime present (e.g., \"3 min read\")",
    Severity.error, seo005check⟩,
   ⟨"SEO-006", "Filename Validation", "Filename is date-prefixed slug matching title gist",
    Severity.error, seo006check⟩,
   ⟨"SEO-010", "Single H1 Rule", "Exactly one H1 from frontmatter title, no # H1 in body",
    Severity.error, seo010check⟩,
   ⟨"SEO-011", "Heading Hierarchy", "Use hierarchical headings H2/H3, no jumps",
    Severity.warning, seo011check⟩,
   ⟨"SEO-012", "Keyword in Opening", "First 100 words mention primary keyword once, naturally",
    Severity.warning, seo012check⟩,
   ⟨"SEO-013", "Internal Linking", "At least one internal link to relevant post/page",
    Severity.warning, seo013check⟩,
   ⟨"SEO-014", "Descriptive Link Text", "External links use descriptive anchor text",
    Severity.warning, seo014check⟩,
   ⟨"SEO-020", "Image Alt Text", "Images have meaningful alt text",
    Severity.error, seo020check⟩,
   ⟨"SEO-031", "No Placeholder Content", "No placeholder links or lorem ipsum",
    Severity.error, seo031check⟩,
   ⟨"SEO-040", "Sentence Length", "Sentences under 25-30 words in first two paragraphs",
    Severity.info, seo040check⟩,
   ⟨"SEO-051", "Markdown Syntax", "No broken Markdown syntax",
    Severity.error, seo051check⟩,
   ⟨"SEO-052", "Keyword Density", "Keyword density under 2.5%",
    Severity.warning, seo052check⟩]

/-! ### Evaluator, summarizer (`seo-rules.ts` lines 571–632) -/

/-- Options record `LintContentOptions` (`seo-rules.ts` lines 571–575). -/
structure LintContentOptions where
  filePath : Option String := none
  filename : Option String := none
  frontmatter : Option Frontmatter := none

/-- Modelled from node's POSIX `path.basename`: drop trailing slashes,
then keep the part after the last remaining slash. -/
def basename (p : String) : String :=
  let q := (p.toList.reverse.dropWhile (fun c => c = '/')).reverse
  String.mk ((q.reverse.takeWhile (fun c => c ≠ '/')).reverse)

/-- The filename the evaluator passes to the rules (`seo-rules.ts` lines
600–602): `options.filename || (options.filePath ?
path.basename(options.filePath) : undefined)` — an empty string is falsy
at both steps. -/
def resolveFilename (opts : LintContentOptions) : Option String :=
  let fromPath : Option String :=
    match opts.filePath with
    | some p => if p ≠ "" then some (basename p) else none
    | none => none
  match opts.filename with
  | some f => if f ≠ "" then some f else fromPath
  | none => fromPath

/-- The front matter the evaluator passes to the rules (`seo-rules.ts`
lines 590–598): the provided map if any, otherwise the result of parsing
the raw content with the external `gray-matter` parser — abstracted here
as the `parseFM` argument — with a thrown parse error caught and turned
into the empty map. -/
def resolveFrontmatter (parseFM : String → Except Unit Frontmatter)
    (rawContent : String) (opts : LintContentOptions) : Frontmatter :=
  match opts.frontmatter with
  | some fm => fm
  | none =>
    match parseFM rawContent with
    | Except.ok d => d
    | Except.error _ => []

/-- The merged per-rule result built by the evaluator (`seo-rules.ts`
lines 604–612). -/
def mergeRuleResult (rule : SEOLintRule) (result : SEOLintRuleResult) : SEOLintResult :=
  { rule := rule.id, name := rule.name, severity := rule.severity,
    passed := result.passed, message := result.message, suggestion := result.suggestion }

/-- Evaluator `lintContent` (`seo-rules.ts` lines 579–613), parametrised
by the external front-matter parser. -/
def lintContent (parseFM : String → Except Unit Frontmatter)
    (rawContent : String) (opts : LintContentOptions) : List SEOLintResult :=
  let frontmatter := resolveFrontmatter parseFM rawContent opts
  let filename := resolveFilename opts
  SEO_RULES.map (fun rule => mergeRuleResult rule (rule.check rawContent frontmatter filename))

/-- One step of the summary fold (`seo-rules.ts` lines 616–628). -/
def summarizeStep (acc : SEOLintSummary) (result : SEOLintResult) : SEOLintSummary :=
  if result.passed then { acc with passed := acc.passed + 1 }
  else if result.severity = Severity.error then { acc with errors := acc.errors + 1 }
  else if result.severity = Severity.warning then { acc with warnings := acc.warnings + 1 }
  else acc

/-- Summarizer `summarizeLintResults` (`seo-rules.ts` lines 615–632);
the score is computed in exact rational arithmetic. -/
def summarizeLintResults (results : List SEOLintResult) : SEOLintSummary × ℚ :=
  let summary := results.foldl summarizeStep ⟨0, 0, 0⟩
  let score : ℚ :=
    if results.length > 0 then (summary.passed : ℚ) / (results.length : ℚ) * 100 else 100
  (summary, score)

/-! ### Spec-side definitions (for refinement comparison only) -/

/-- Bare-URL anchor text, per the specification's words: the anchor is a
URL rather than descriptive text. -/
def isBareUrl (s : String) : Bool :=
  strStarts s "http://" || strStarts s "https://" || strStarts s "www."

/-- Modelled from the claim's words, not from the source (refinement
comparison for the descriptive-link-text rule): the anchor text,
whitespace-trimmed and compared case-insensitively, "is a bare URL or one
of the fixed strings \"click here\", \"here\", \"link\", \"read
more\"". -/
def claimGenericAnchor (text : String) : Bool :=
  let t := jsToLower (jsTrim text)
  isBareUrl t || t = "click here" || t = "here" || t = "link" || t = "read more"

/-! ## Theorems -/

/-- C1, counterexample: at a concrete input (any input, in fact) the
evaluator returns sixteen results, not fourteen. -/
theorem lintContent_count_not_fourteen :
    (lintContent (fun _ => Except.error ()) "" {}).length = 16 ∧ (16 : Nat) ≠ 14 := by
  constructor
  · simp [lintContent, SEO_RULES]
  · decide

/-- C1 (amended: the registry has 16 rules, not 14): for every parser,
raw content and options, `lintContent` returns one result per registered
rule — 16 of them — in registry order, the i-th carrying the i-th rule's
id, name and severity merged with that rule's verdict on the resolved
`(content, frontmatter, filename)` triple. -/
theorem lintContent_results_structure (parseFM : String → Except Unit Frontmatter)
    (rawContent : String) (opts : LintContentOptions) :
    (lintContent parseFM rawContent opts).length = 16 ∧
    SEO_RULES.length = 16 ∧
    ∀ i : Nat, (lintContent parseFM rawContent opts)[i]? =
      (SEO_RULES[i]?).map (fun rule =>
        mergeRuleResult rule
          (rule.check rawContent (resolveFrontmatter parseFM rawContent opts)
            (resolveFilename opts))) := by
  refine ⟨by simp [lintContent, SEO_RULES], by simp [SEO_RULES], fun i => ?_⟩
  simp [lintContent]

/-- C6: when no pre-parsed front matter is supplied and the front-matter
parser throws, the evaluator proceeds with the empty map and still
returns the full sixteen-entry result list. -/
theorem lintContent_parse_failure_recovers (parseFM : String → Except Unit Frontmatter)
    (rawContent : String) (fp fn : Option String)
    (h : parseFM rawContent = Except.error ()) :
    resolveFrontmatter parseFM rawContent ⟨fp, fn, none⟩ = [] ∧
    (lintContent parseFM rawContent ⟨fp, fn, none⟩).length = 16 ∧
    lintContent parseFM rawContent ⟨fp, fn, none⟩ =
      SEO_RULES.map (fun rule =>
        mergeRuleResult rule
          (rule.check rawContent [] (resolveFilename ⟨fp, fn, none⟩))) := by
  have hfm : resolveFrontmatter parseFM rawContent ⟨fp, fn, none⟩ = [] := by
    simp [resolveFrontmatter, h]
  refine ⟨hfm, by simp [lintContent, SEO_RULES], ?_⟩
  simp [lintContent, hfm]

/-- C6, witness: a parser that throws on a malformed front-matter block
is recovered into the empty map and a full result list. -/
theorem lintContent_parse_failure_recovers_witness :
    resolveFrontmatter (fun _ => Except.error ()) "---\nbad: [\n---\nBody" ⟨none, none, none⟩ = [] ∧
    (lintContent (fun _ => Except.error ()) "---\nbad: [\n---\nBody" ⟨none, none, none⟩).length = 16 := by
  have h := lintContent_parse_failure_recovers (fun _ => Except.error ())
    "---\nbad: [\n---\nBody" none none rfl
  exact ⟨h.1, h.2.1⟩

/-- C10: whenever the front-matter-stripped body splits into fewer than
two non-empty paragraphs, the sentence-length rule passes unconditionally
with its fixed message. -/
theorem seo040_few_paragraphs_passes (content : String) (frontmatter : Frontmatter)
    (filename : Option String) (h : (paragraphsOf content).length < 2) :
    seo040check content frontmatter filename =
      ⟨true, "Not enough paragraphs for sentence analysis", none⟩ := by
  simp [seo040check, h]

/-- C10, witness: a single-paragraph document whose only sentence has 31
words still passes the sentence-length rule. -/
theorem seo040_few_paragraphs_passes_witness :
    (paragraphsOf (String.intercalate " " (List.replicate 31 "w") ++ ".")).length < 2 ∧
    jsSplitWsCount (String.intercalate " " (List.replicate 31 "w")) > 30 ∧
    seo040check (String.intercalate " " (List.replicate 31 "w") ++ ".") [] none =
      ⟨true, "Not enough paragraphs for sentence analysis", none⟩ := by
  refine ⟨by decide, by decide, ?_⟩
  exact seo040_few_paragraphs_passes _ [] none (by decide)

/-- Auxiliary: the summary fold adds, bucket by bucket, the counts of
passing results, failing error-severity results and failing
warning-severity results. -/
theorem foldl_summarizeStep (l : List SEOLintResult) (acc : SEOLintSummary) :
    l.foldl summarizeStep acc =
      ⟨acc.errors + l.countP (fun r => !r.passed && decide (r.severity = Severity.error)),
       acc.warnings + l.countP (fun r => !r.passed && decide (r.severity = Severity.warning)),
       acc.passed + l.countP (fun r => r.passed)⟩ := by
  induction l generalizing acc with
  | nil => simp
  | cons r t ih =>
    rcases r with ⟨rid, rname, sev, passed, msg, sugg⟩
    cases passed <;> cases sev <;>
      simp [summarizeStep, ih, List.countP_cons, SEOLintSummary.mk.injEq] <;> omega

/-- Auxiliary: every result is counted in exactly one of the four
classes: passing, failing error, failing warning, failing info. -/
theorem countP_result_partition (l : List SEOLintResult) :
    l.countP (fun r => !r.passed && decide (r.severity = Severity.error)) +
      l.countP (fun r => !r.passed && decide (r.severity = Severity.warning)) +
      l.countP (fun r => r.passed) +
      l.countP (fun r => !r.passed && decide (r.severity = Severity.info)) = l.length := by
  induction l with
  | nil => simp
  | cons r t ih =>
    rcases r with ⟨rid, rname, sev, passed, msg, sugg⟩
    cases passed <;> cases sev <;> simp [List.countP_cons] <;> omega

/-- C2: the score is the passing fraction times 100, and 100 by
convention on an empty result list. -/
theorem summarize_score (results : List SEOLintResult) :
    (summarizeLintResults results).2 =
      if results.length = 0 then 100
      else ((results.countP (fun r => r.passed) : ℚ) / (results.length : ℚ)) * 100 := by
  unfold summarizeLintResults
  rw [foldl_summarizeStep]
  by_cases h : results.length = 0
  · simp [h]
  · have hpos : results.length > 0 := Nat.pos_of_ne_zero h
    simp [h, hpos]

/-- C3: the summary counts passes, failing errors and failing warnings,
a failing info-severity result lands in no bucket, and therefore
`errors + warnings + passed` is the list length minus the number of
failing info results. -/
theorem summarize_buckets (results : List SEOLintResult) :
    (summarizeLintResults results).1.passed = results.countP (fun r => r.passed) ∧
    (summarizeLintResults results).1.errors =
      results.countP (fun r => !r.passed && decide (r.severity = Severity.error)) ∧
    (summarizeLintResults results).1.warnings =
      results.countP (fun r => !r.passed && decide (r.severity = Severity.warning)) ∧
    (summarizeLintResults results).1.errors + (summarizeLintResults results).1.warnings +
        (summarizeLintResults results).1.passed =
      results.length -
        results.countP (fun r => !r.passed && decide (r.severity = Severity.info)) := by
  have hpart := countP_result_partition results
  unfold summarizeLintResults
  rw [foldl_summarizeStep]
  refine ⟨by simp, by simp, by simp, ?_⟩
  simp only []
  omega

/-- Auxiliary: the jump scan reports nothing exactly when every element
is at most one more than its immediate predecessor. -/
theorem firstJump_none_iff (l : List Nat) :
    firstJump l = none ↔ ∀ i, (h : i + 1 < l.length) → l[i + 1] ≤ l[i] + 1 := by
  induction l with
  | nil => simp [firstJump]
  | cons a t ih =>
    cases t with
    | nil =>
      simp only [firstJump]
      constructor
      · intro _ i h
        simp at h
      · intro _
        trivial
    | cons b t2 =>
      by_cases hab : b > a + 1
      · simp only [firstJump, if_pos hab]
        constructor
        · intro h
          exact absurd h (by simp)
        · intro h
          have h0 := h 0 (by simp)
          simp at h0
          omega
      · simp only [firstJump, if_neg hab]
        rw [ih]
        constructor
        · intro h i hi
          match i with
          | 0 =>
            simpa using Nat.le_of_not_lt hab
          | j + 1 =>
            have hj : j + 1 < (b :: t2).length := by
              simpa using Nat.lt_of_succ_lt_succ hi
            simpa using h j hj
        · intro h j hj
          have := h (j + 1) (by simpa using Nat.succ_lt_succ hj)
          simpa using this

/-- C4: the heading-hierarchy rule fails exactly when some heading's
level exceeds its immediate predecessor's level by more than one (each
heading is compared only to its immediate predecessor); the sequence
H2, H3, H2, H4 fails reporting a jump from H2 to H4, and a body of
`## A` then `#### B` fails reporting a jump from H2 to H4. -/
theorem seo011_adjacent_jump :
    (∀ (content : String) (fm : Frontmatter) (filename : Option String),
      (seo011check content fm filename).passed = false ↔
        ∃ i, ∃ h : i + 1 < (headingLevels content).length,
          (headingLevels content)[i] + 1 < (headingLevels content)[i + 1]) ∧
    seo011check "## A\n#### B" [] none =
      ⟨false, "Heading jump detected: H2 to H4",
        some "Use sequential heading levels (H2 → H3, not H2 → H4)"⟩ ∧
    (seo011check "## a\n### b\n## c\n#### d" [] none).message =
      "Heading jump detected: H2 to H4" := by
  refine ⟨fun content fm filename => ?_, by decide, by decide⟩
  have hpassed : (seo011check content fm filename).passed = false ↔
      firstJump (headingLevels content) ≠ none := by
    cases hj : firstJump (headingLevels content) with
    | none => simp [seo011check, hj]
    | some pc => simp [seo011check, hj]
  rw [hpassed, Ne, firstJump_none_iff]
  push_neg
  constructor
  · rintro ⟨i, hi, hlt⟩
    exact ⟨i, hi, by omega⟩
  · rintro ⟨i, hi, hlt⟩
    exact ⟨i, hi, by omega⟩

/-- C5: a title of length exactly 45 or exactly 70 containing a primary
keyword (case-insensitively) in its first half passes the title rule,
and a title of length 44 or 71 fails it. -/
theorem seo001_title_boundaries (content : String) (fm : Frontmatter)
    (filename : Option String) :
    (((fmGet fm "title").length = 45 ∨ (fmGet fm "title").length = 70) →
      PRIMARY_KEYWORDS.any (fun keyword =>
        strContains (strTake (jsToLower (fmGet fm "title")) ((fmGet fm "title").length / 2))
          (jsToLower keyword)) = true →
      (seo001check content fm filename).passed = true) ∧
    (((fmGet fm "title").length = 44 ∨ (fmGet fm "title").length = 71) →
      (seo001check content fm filename).passed = false) := by
  constructor
  · intro hlen hkw
    have hne : ¬ fmGet fm "title" = "" := by
      intro e
      rw [e] at hlen
      simp at hlen
    have hcond : ((fmGet fm "title").length < 45 || (fmGet fm "title").length > 70) = false := by
      rcases hlen with h | h <;> rw [h] <;> decide
    simp [seo001check, hne, hcond, hkw]
  · intro hlen
    have hne : ¬ fmGet fm "title" = "" := by
      intro e
      rw [e] at hlen
      simp at hlen
    have hcond : ((fmGet fm "title").length < 45 || (fmGet fm "title").length > 70) = true := by
      rcases hlen with h | h <;> rw [h] <;> decide
    simp [seo001check, hne, hcond]

/-- C5, witness: concrete titles at the four boundary lengths, the
passing ones carrying the primary keyword `gtm as code` in their first
half. -/
theorem seo001_title_boundaries_witness :
    (seo001check "" [("title", "gtm as code" ++ String.mk (List.replicate 34 'x'))]
      none).passed = true ∧
    (seo001check "" [("title", "gtm as code" ++ String.mk (List.replicate 59 'x'))]
      none).passed = true ∧
    (seo001check "" [("title", String.mk (List.replicate 44 'x'))] none).passed = false ∧
    (seo001check "" [("title", String.mk (List.replicate 71 'x'))] none).passed = false :=
  ⟨(seo001_title_boundaries "" _ none).1 (Or.inl (by decide)) (by decide),
   (seo001_title_boundaries "" _ none).1 (Or.inr (by decide)) (by decide),
   (seo001_title_boundaries "" _ none).2 (Or.inl (by decide)),
   (seo001_title_boundaries "" _ none).2 (Or.inr (by decide))⟩

/-- C7: linted without a filename and without a file path, the filename
rule (the sixth registry entry) yields a failing result whose message
states the filename was not provided — it is never skipped; with a
filename that does not match the `YYYY-MM-DD-slug.md` shape, it yields a
normal failing result. -/
theorem seo006_filename_handling :
    (∀ (parseFM : String → Except Unit Frontmatter) (rawContent : String)
        (fmo : Option Frontmatter),
      (lintContent parseFM rawContent ⟨none, none, fmo⟩)[5]? =
        some ⟨"SEO-006", "Filename Validation", Severity.error, false,
          "Filename not provided for validation",
          some "Ensure filename follows YYYY-MM-DD-slug.md format"⟩) ∧
    (∀ (content : String) (fm : Frontmatter) (f : String),
      f ≠ "" → matchesFilenameFormat f = false →
      seo006check content fm (some f) =
        ⟨false, "Invalid filename format: " ++ f,
          some "Use YYYY-MM-DD-slug.md format"⟩) := by
  constructor
  · intro parseFM rawContent fmo
    rfl
  · intro content fm f hf hfmt
    simp [seo006check, hf, hfmt]

/-- C7, witness: a concrete lint run with neither filename nor path, and
a concrete malformed filename. -/
theorem seo006_filename_handling_witness :
    (lintContent (fun _ => Except.error ()) "" ⟨none, none, none⟩)[5]? =
      some ⟨"SEO-006", "Filename Validation", Severity.error, false,
        "Filename not provided for validation",
        some "Ensure filename follows YYYY-MM-DD-slug.md format"⟩ ∧
    seo006check "" [] (some "notes.txt") =
      ⟨false, "Invalid filename format: notes.txt",
        some "Use YYYY-MM-DD-slug.md format"⟩ :=
  ⟨seo006_filename_handling.1 (fun _ => Except.error ()) "" none,
   seo006_filename_handling.2 "" [] "notes.txt" (by decide) (by decide)⟩

/-- C8, counterexample: the anchor text `https://x.com` is a bare URL
(so the claim demands a failure), yet the descriptive-link-text rule
passes on a document whose only link has exactly that anchor — the
anchored regex only flags the exact scheme strings. -/
theorem seo014_bare_url_counterexample :
    linkTexts "[https://x.com](https://x.com)" = ["https://x.com"] ∧
    claimGenericAnchor "https://x.com" = true ∧
    (seo014check "[https://x.com](https://x.com)" [] none).passed = true := by
  refine ⟨by decide, by decide, by decide⟩

/-- C8 (amended: only the exact strings `http://`, `https://`, `www.` —
not full bare URLs — and the fixed phrases are flagged): the
descriptive-link-text rule fails exactly when some link's anchor text,
trimmed and lowercased, equals one of the seven fixed strings; a body
containing `[click here](https://x.com)` fails with that anchor text
flagged. -/
theorem seo014_generic_anchor (content : String) (fm : Frontmatter)
    (filename : Option String) :
    ((seo014check content fm filename).passed = false ↔
      (linkTexts content).any isGenericAnchor = true) ∧
    (seo014check "See [click here](https://x.com) now" [] none).passed = false ∧
    (linkTexts "See [click here](https://x.com) now").filter isGenericAnchor =
      ["click here"] := by
  refine ⟨?_, by decide, by decide⟩
  have hlt : (scanStr parseLinkAt content).map Prod.fst = linkTexts content := rfl
  by_cases hb : ((linkTexts content).filter isGenericAnchor).length > 0
  · have hany : (linkTexts content).any isGenericAnchor = true := by
      rw [List.any_eq_true]
      have hne : (linkTexts content).filter isGenericAnchor ≠ [] := by
        intro e
        rw [e] at hb
        simp at hb
      obtain ⟨x, hx⟩ := List.exists_mem_of_ne_nil _ hne
      exact ⟨x, List.mem_of_mem_filter hx, List.of_mem_filter hx⟩
    simp [seo014check, hlt, hb, hany]
  · have hnil : (linkTexts content).filter isGenericAnchor = [] := by
      rcases h : (linkTexts content).filter isGenericAnchor with _ | ⟨x, xs⟩
      · rfl
      · rw [h] at hb
        simp at hb
    have hany : (linkTexts content).any isGenericAnchor = false := by
      rw [List.filter_eq_nil_iff] at hnil
      rw [List.any_eq_false]
      intro x hx
      simpa using hnil x hx
    simp [seo014check, hlt, hb, hany]

/-- Auxiliary: the first-offender scan over the keyword list comes back
empty exactly when no keyword's density exceeds the threshold. -/
theorem firstDenseKeyword_none_iff (body : String) (total : Nat) (l : List String) :
    firstDenseKeyword body total l = none ↔
      ∀ kw ∈ l, densityExceeds (countOccur body (jsToLower kw)) total = false := by
  induction l with
  | nil => simp [firstDenseKeyword]
  | cons kw rest ih =>
    by_cases hd : densityExceeds (countOccur body (jsToLower kw)) total = true
    · simp [firstDenseKeyword, hd]
    · have hd' : densityExceeds (countOccur body (jsToLower kw)) total = false := by
        simpa using hd
      simp [firstDenseKeyword, hd', ih]

/-- C9: the keyword-density rule fails exactly when some primary
keyword's occurrence count in the lowercased, front-matter-stripped body
exceeds 2.5% of the words longer than two characters (for a positive
word total, the threshold test is exactly `count / total * 100 > 2.5`),
and a body whose keyword density exceeds the threshold fails naming that
keyword and its computed percentage. -/
theorem seo052_keyword_density :
    (∀ (content : String) (fm : Frontmatter) (filename : Option String),
      (seo052check content fm filename).passed = false ↔
        ∃ kw ∈ PRIMARY_KEYWORDS,
          densityExceeds
            (countOccur (jsToLower (stripFrontmatter content)) (jsToLower kw))
            (totalWordsOf content) = true) ∧
    (∀ c t : Nat, 0 < t →
      (densityExceeds c t = true ↔ ((c : ℚ) / (t : ℚ)) * 100 > 5 / 2)) ∧
    seo052check "posthog posthog posthog" [] none =
      ⟨false, "Keyword \"posthog\" density is 100.0% (should be < 2.5%)",
        some "Reduce keyword repetition and vary your language"⟩ := by
  refine ⟨fun content fm filename => ?_, fun c t ht => ?_, by decide⟩
  · have hpassed : (seo052check content fm filename).passed = false ↔
        firstDenseKeyword (jsToLower (stripFrontmatter content)) (totalWordsOf content)
          PRIMARY_KEYWORDS ≠ none := by
      cases hj : firstDenseKeyword (jsToLower (stripFrontmatter content))
        (totalWordsOf content) PRIMARY_KEYWORDS with
      | none => simp [seo052check, hj]
      | some kw => simp [seo052check, hj]
    rw [hpassed, Ne, firstDenseKeyword_none_iff]
    push_neg
    constructor
    · rintro ⟨kw, hkw, hne⟩
      exact ⟨kw, hkw, by simpa using hne⟩
    · rintro ⟨kw, hkw, heq⟩
      exact ⟨kw, hkw, by simp [heq]⟩
  · have ht0 : ¬ t = 0 := Nat.pos_iff_ne_zero.mp ht
    simp only [densityExceeds, if_neg ht0]
    rw [decide_eq_true_eq]
    have htq : (0 : ℚ) < (t : ℚ) := by exact_mod_cast ht
    constructor
    · intro h
      have h40 : (t : ℚ) < 40 * (c : ℚ) := by exact_mod_cast h
      have hlt : (5 : ℚ) / 2 < (c : ℚ) / (t : ℚ) * 100 := by
        rw [div_mul_eq_mul_div, lt_div_iff₀ htq]
        linarith
      exact hlt
    · intro h
      have hlt : (5 : ℚ) / 2 * (t : ℚ) < (c : ℚ) * 100 := by
        rw [← lt_div_iff₀ htq, ← div_mul_eq_mul_div]
        exact h
      have h40 : (t : ℚ) < 40 * (c : ℚ) := by linarith
      exact_mod_cast h40

/-- C9, witness: at count 3 over 3 words the threshold test holds and
the exact density exceeds 2.5%. -/
theorem seo052_keyword_density_witness :
    densityExceeds 3 3 = true ∧ ((3 : ℚ) / (3 : ℚ)) * 100 > 5 / 2 :=
  ⟨by decide, (seo052_keyword_density.2.1 3 3 (by decide)).mp (by decide)⟩

end GTMToolkit
